import Mathlib

/-!
Shallow embedding of the STOMP MoveIt planning-session orchestration code
(stomp_moveit, file src/stomp_moveit/src/stomp_planner.cpp) and proofs about it.

Numeric joint values are embedded as rationals.  External collaborators that
the source consumes opaquely (the TRAC-IK solver, the stomp_core optimizer,
the polynomial smoother, the time parameterizer and the planning-scene
collision check) are threaded through an explicit record of functions, so the
orchestration logic itself is fully executable.

Partiality conventions used throughout: a C++ computation that has no defined
result (an out-of-bounds vector access, control falling off the end of a
non-void function, a failing assert) is embedded as the value none of an
outer Option layer; a defined "returns false" outcome is embedded as an
inner none.  Each definition states which source lines it embeds.
-/

namespace StompPlannerModel

/-- A joint configuration: one rational per active degree of freedom
(Eigen::VectorXd in the source). -/
abbrev Vec := List ℚ

/-- A trajectory matrix, stored as its list of columns; column t is the
configuration at time step t (Eigen::MatrixXd, DOF x timesteps). -/
abbrev Mat := List Vec

/-- moveit_msgs::JointConstraint: a joint name and a target position. -/
structure JointConstraintMsg where
  joint_name : String
  position : ℚ
deriving DecidableEq

/-- moveit_msgs::PositionConstraint, reduced to the target_point_offset
fields that stomp_planner.cpp reads (lines 646-648). -/
structure PositionConstraintMsg where
  x : ℚ
  y : ℚ
  z : ℚ
deriving DecidableEq

/-- moveit_msgs::OrientationConstraint, reduced to the quaternion fields
that stomp_planner.cpp reads (lines 649-650). -/
structure OrientationConstraintMsg where
  qx : ℚ
  qy : ℚ
  qz : ℚ
  qw : ℚ
deriving DecidableEq

/-- moveit_msgs::Constraints, reduced to the three constraint lists the
planner inspects. -/
structure ConstraintsMsg where
  joint_constraints : List JointConstraintMsg
  position_constraints : List PositionConstraintMsg
  orientation_constraints : List OrientationConstraintMsg
deriving DecidableEq

/-- moveit_msgs::TrajectoryConstraints. -/
structure TrajectoryConstraintsMsg where
  constraints : List ConstraintsMsg
deriving DecidableEq

/-- trajectory_msgs::JointTrajectoryPoint, reduced to positions; the
velocity, acceleration and timing fields are never read back by the
planner logic under study. -/
structure JointTrajectoryPoint where
  positions : List ℚ
deriving DecidableEq

/-- trajectory_msgs::JointTrajectory. -/
structure JointTrajectory where
  joint_names : List String
  points : List JointTrajectoryPoint
deriving DecidableEq

/-- moveit_msgs::RobotState, reduced to a joint-name/value association list.
The conversion robotStateMsgToRobotState is modelled as always succeeding on
this representation; a joint absent from the list reads as its default 0. -/
structure RobotStateMsg where
  joint_positions : List (String × ℚ)
deriving DecidableEq

/-- moveit_msgs::MotionPlanRequest, reduced to the fields stomp_planner.cpp
reads: start state, goal constraints and trajectory constraints. -/
structure MotionPlanRequest where
  start_state : RobotStateMsg
  goal_constraints : List ConstraintsMsg
  trajectory_constraints : TrajectoryConstraintsMsg
deriving DecidableEq

/-- One active joint of the planning group with its position bounds. -/
structure JointModel where
  name : String
  lower : ℚ
  upper : ℚ
deriving DecidableEq

/-- The planning group: its ordered list of active joint models. -/
structure JointModelGroup where
  joints : List JointModel
deriving DecidableEq

/-- The ordered active joint names of the group
(getActiveJointModelNames in the source). -/
def JointModelGroup.names (g : JointModelGroup) : List String :=
  g.joints.map (fun j => j.name)

/-- A Cartesian end-effector pose assembled from a position constraint and an
orientation constraint (KDL::Frame built at lines 645-650). -/
structure Pose where
  px : ℚ
  py : ℚ
  pz : ℚ
  qx : ℚ
  qy : ℚ
  qz : ℚ
  qw : ℚ
deriving DecidableEq

/-- Builds the IK target pose from the two constraint messages, as lines
646-650 copy target_point_offset and the quaternion into the KDL frame. -/
def poseOf (pc : PositionConstraintMsg) (oc : OrientationConstraintMsg) : Pose :=
  ⟨pc.x, pc.y, pc.z, oc.qx, oc.qy, oc.qz, oc.qw⟩

/-- moveit_msgs::MoveItErrorCodes::SUCCESS. -/
def SUCCESS : Int := 1

/-- moveit_msgs::MoveItErrorCodes::FAILURE. -/
def FAILURE : Int := 99999

/-- moveit_msgs::MoveItErrorCodes::PLANNING_FAILED. -/
def PLANNING_FAILED : Int := -1

/-- moveit_msgs::MoveItErrorCodes::INVALID_MOTION_PLAN. -/
def INVALID_MOTION_PLAN : Int := -2

/-- The design constant MAX_START_DISTANCE_THRESH = 0.5 (line 41). -/
def MAX_START_DISTANCE_THRESH : ℚ := 1/2

/-- A mutable robot state, modelled as an association list from joint names
to positions; setting a variable prepends a binding (latest binding wins). -/
abbrev RobotState := List (String × ℚ)

/-- state.getVariablePosition(name); missing joints read as the default 0. -/
def getVar (s : RobotState) (n : String) : ℚ :=
  match s.find? (fun p => p.1 == n) with
  | some p => p.2
  | none => 0

/-- state.setVariablePosition(name, value). -/
def setVar (s : RobotState) (n : String) (v : ℚ) : RobotState :=
  (n, v) :: s

/-- state.satisfiesBounds restricted to the planning group: every active
joint position lies inside its lower/upper bounds. -/
def satisfiesBounds (g : JointModelGroup) (s : RobotState) : Bool :=
  g.joints.all (fun j =>
    decide (j.lower ≤ getVar s j.name) && decide (getVar s j.name ≤ j.upper))

/-- state.enforceBounds(group): clamps each active joint of the group into
its bounds (line 344). -/
def enforceBounds (g : JointModelGroup) (s : RobotState) : RobotState :=
  g.joints.foldl
    (fun acc j => setVar acc j.name (max j.lower (min (getVar acc j.name) j.upper))) s

/-- The external collaborators consumed opaquely by the planner.  ikSolve
models the TRAC-IK chain setup plus CartToJnt call of lines 637-676 (none
covers both a chain-construction failure and a negative CartToJnt return
code); nJoints is chain.getNrOfJoints(); smooth is
utils::polynomial::applyPolynomialSmoothing (line 422, code of this
repository outside the file under study); taskOK is the boolean result of
task_->setMotionPlanRequest; stompSolveSeed and stompSolveStartGoal are the
two stomp_core::Stomp::solve overloads; computeTimeStamps is the iterative
parabolic time parameterization of lines 448-460 (it reassigns timing but
keeps one point per input column); isPathValid is
planning_scene::isPathValid. -/
structure Ext where
  ikSolve : Vec → Pose → Option Vec
  nJoints : Nat
  smooth : Mat → Option Mat
  taskOK : Bool
  stompSolveSeed : Mat → Option Mat
  stompSolveStartGoal : Vec → Vec → Option Mat
  computeTimeStamps : JointTrajectory → Option JointTrajectory
  isPathValid : JointTrajectory → Bool

/-- The nominal configuration actually handed to CartToJnt (lines 653-660):
the KDL::JntArray of size nJoints is zero-initialized, and only when the
hint vector is nonempty is it overwritten by the hint.  The adjacent source
comment claims a configuration midway between all joint limits, but no
limits are ever queried (the getKDLLimits call is commented out at lines
642-643), so the empty-hint nominal is the all-zero configuration. -/
def nominalFor (nJoints : Nat) (hint : Vec) : Vec :=
  if 0 < hint.length then hint else List.replicate nJoints 0

/-- StompPlanner::ikFromCartesianConstraints (lines 614-677): builds the
target pose from the two constraints and calls the solver on the nominal
derived from the hint.  The header defaults the hint argument to an empty
vector, so four-argument call sites pass the empty hint.  On failure the
C++ result output parameter is left unchanged; that behavior lives at the
call sites of this embedding. -/
def ikFromCartesianConstraints (solver : Vec → Pose → Option Vec) (nJoints : Nat)
    (pc : PositionConstraintMsg) (oc : OrientationConstraintMsg) (hint : Vec) :
    Option Vec :=
  solver (nominalFor nJoints hint) (poseOf pc oc)

/-- Modelled from the spec: section 4.3 describes the first-waypoint warm
start as a neutral mid-range hint, a nominal configuration midway between
all joint limits.  This definition follows those words and exists to be
compared against nominalFor, the configuration the source actually builds. -/
def midRangeNominal (limits : List (ℚ × ℚ)) : Vec :=
  limits.map (fun b => (b.1 + b.2) / 2)

/-- StompPlanner::isCartesianSeed (lines 679-695).  The source indexes
constraints[0] without an emptiness check and its final control path falls
off the end of a non-void function, so the result is undefined (outer none)
when the constraint list is empty or when the first constraint set has no
joint constraints and no paired position+orientation constraints. -/
def isCartesianSeed (cs : List ConstraintsMsg) : Option Bool :=
  match cs.head? with
  | none => none
  | some c0 =>
    if 0 < c0.joint_constraints.length then some false
    else if 0 < c0.position_constraints.length ∧ 0 < c0.orientation_constraints.length
    then some true
    else none

/-- A Cartesian waypoint: one position constraint paired with one
orientation constraint. -/
abbrev Waypoint := PositionConstraintMsg × OrientationConstraintMsg

/-- The loop body of StompPlanner::extractSeedCartesianTrajectory (lines
535-560): the running vector joint_pos starts empty, each waypoint is solved
with the previous joint_pos as hint; on success the solution is pushed and
becomes the new joint_pos, on failure the failure counter is bumped and the
unchanged joint_pos is pushed as the placeholder point.  Returns the pushed
points and the failure count. -/
def extractCartAux (solver : Vec → Pose → Option Vec) (nJoints : Nat) :
    List Waypoint → Vec → List Vec × Nat
  | [], _ => ([], 0)
  | w :: ws, jp =>
    match ikFromCartesianConstraints solver nJoints w.1 w.2 jp with
    | some sol =>
      let r := extractCartAux solver nJoints ws sol
      (sol :: r.1, r.2)
    | none =>
      let r := extractCartAux solver nJoints ws jp
      (jp :: r.1, r.2 + 1)

/-- StompPlanner::extractSeedCartesianTrajectory (lines 525-566) on an
already-zipped waypoint list: runs the IK chain from the empty initial
joint_pos and always returns true (third component) regardless of the
failure count. -/
def extractSeedCartesianTrajectory (solver : Vec → Pose → Option Vec) (nJoints : Nat)
    (wps : List Waypoint) : List Vec × Nat × Bool :=
  let r := extractCartAux solver nJoints wps []
  (r.1, r.2, true)

/-- A waypoint is solvable for a given solver when the embedded IK call
succeeds whatever hint it is warm-started with. -/
def solvableWp (solver : Vec → Pose → Option Vec) (nJoints : Nat) (w : Waypoint) : Prop :=
  ∀ h : Vec, (ikFromCartesianConstraints solver nJoints w.1 w.2 h).isSome

/-- A waypoint is unsolvable for a given solver when the embedded IK call
fails whatever hint it is warm-started with. -/
def unsolvableWp (solver : Vec → Pose → Option Vec) (nJoints : Nat) (w : Waypoint) : Prop :=
  ∀ h : Vec, ikFromCartesianConstraints solver nJoints w.1 w.2 h = none

/-- The per-constraint-set body of StompPlanner::extractSeedJointTrajectory
(lines 495-519): each constraint set must have exactly one joint constraint
per active joint, with names matching the group order; its positions become
one trajectory point. -/
def decodeConstraints (names : List String) : List ConstraintsMsg →
    Option (List JointTrajectoryPoint)
  | [] => some []
  | c :: rest =>
    if c.joint_constraints.length == names.length
        && (c.joint_constraints.zip names).all (fun q => q.1.joint_name == q.2) then
      match decodeConstraints names rest with
      | some pts => some (⟨c.joint_constraints.map (fun jc => jc.position)⟩ :: pts)
      | none => none
    else none

/-- StompPlanner::extractSeedJointTrajectory (lines 488-523): decodes the
trajectory constraints into a joint trajectory carrying the group joint
names; none embeds the boolean false return. -/
def extractSeedJointTrajectory (names : List String) (tc : TrajectoryConstraintsMsg) :
    Option JointTrajectory :=
  (decodeConstraints names tc.constraints).map (fun pts => ⟨names, pts⟩)

/-- StompPlanner::encodeSeedTrajectory (lines 586-612): each trajectory
point becomes a constraint set of one joint constraint per joint, pairing
the seed joint names with the point positions; a point whose positions do
not have the joint_names dimension raises std::runtime_error, embedded as
none. -/
def encodeSeedTrajectory (seed : JointTrajectory) : Option TrajectoryConstraintsMsg :=
  if seed.points.all (fun p => p.positions.length == seed.joint_names.length) then
    some ⟨seed.points.map (fun p =>
      ⟨List.zipWith (fun nm x => ⟨nm, x⟩) seed.joint_names p.positions, [], []⟩)⟩
  else none

/-- StompPlanner::jointTrajectorytoParameters (lines 469-486): the DOF x
timesteps matrix with mat(joint, step) = points[step].positions[joint],
where the DOF count is the joint_names length. -/
def jointTrajectorytoParameters (traj : JointTrajectory) : Mat :=
  traj.points.map (fun p =>
    (List.range traj.joint_names.length).map (fun j => p.positions.getD j 0))

/-- StompPlanner::extractSeedTrajectory (lines 568-584): returns false
(inner none) on empty trajectory constraints, otherwise dispatches on
isCartesianSeed.  The Cartesian branch (lines 525-533) asserts exactly one
constraint set with equally many, and at least one, position and orientation
constraints; a failing ROS_ASSERT aborts, embedded as outer none, as is an
undefined isCartesianSeed result. -/
def extractSeedTrajectory (ext : Ext) (g : JointModelGroup) (req : MotionPlanRequest) :
    Option (Option JointTrajectory) :=
  if req.trajectory_constraints.constraints.isEmpty then some none
  else
    match isCartesianSeed req.trajectory_constraints.constraints with
    | none => none
    | some true =>
      match req.trajectory_constraints.constraints.head? with
      | none => none
      | some c0 =>
        if req.trajectory_constraints.constraints.length == 1
            && c0.position_constraints.length == c0.orientation_constraints.length
            && 0 < c0.position_constraints.length then
          let wps := c0.position_constraints.zip c0.orientation_constraints
          let r := extractSeedCartesianTrajectory ext.ikSolve ext.nJoints wps
          some (some ⟨g.names, r.1.map (fun v => ⟨v⟩)⟩)
        else none
    | some false => some (extractSeedJointTrajectory g.names req.trajectory_constraints)

/-- The L1 seed-deviation distance (a - b).cwiseAbs().sum() used by the
within_tolerance lambda (lines 300-304). -/
def l1dist (a b : Vec) : ℚ :=
  (List.zipWith (fun x y => |x - y|) a b).sum

/-- The within_tolerance lambda of StompPlanner::getSeedParameters
(lines 300-304). -/
def within_tolerance (a b : Vec) (tol : ℚ) : Bool :=
  decide (l1dist a b ≤ tol)

/-- Overwriting parameters.leftCols(1) with a configuration (line 348). -/
def setFirstCol : Mat → Vec → Mat
  | [], _ => []
  | _ :: cs, v => v :: cs

/-- Overwriting parameters.rightCols(1) with a configuration (line 408). -/
def setLastCol (m : Mat) (v : Vec) : Mat :=
  match m with
  | [] => []
  | _ :: _ => m.dropLast ++ [v]

/-- The start-column snap-or-fail step of getSeedParameters (lines 346-354):
if the first seed column is within MAX_START_DISTANCE_THRESH of the request
start in L1 distance it is overwritten with the exact start, otherwise the
repair fails. -/
def repairStart (params : Mat) (start : Vec) : Option Mat :=
  if within_tolerance (params.headD []) start MAX_START_DISTANCE_THRESH
  then some (setFirstCol params start) else none

/-- The goal-column snap-or-fail step of getSeedParameters (lines 404-420). -/
def repairGoal (params : Mat) (goal : Vec) : Option Mat :=
  if within_tolerance (params.getLastD []) goal MAX_START_DISTANCE_THRESH
  then some (setLastCol params goal) else none

/-- The goal-candidate scan shared by getSeedParameters (lines 363-401) and
the joint branch of getStartAndGoal (lines 802-842): for each candidate, a
nonempty joint-constraint set is copied into the state and accepted when the
state satisfies bounds (the copied values persist in the state across a
rejected candidate, as the C++ state object is mutated in place); otherwise
a candidate with paired position and orientation constraints is accepted
when IK on its first pair succeeds (with the defaulted empty hint).  The
first accepted candidate wins. -/
def goalLoop (ext : Ext) (g : JointModelGroup) :
    RobotState → List ConstraintsMsg → Option Vec
  | _, [] => none
  | state, gc :: rest =>
    if gc.joint_constraints.isEmpty = false then
      let s2 := gc.joint_constraints.foldl
        (fun acc jc => setVar acc jc.joint_name jc.position) state
      if satisfiesBounds g s2 then some (g.names.map (getVar s2))
      else goalLoop ext g s2 rest
    else if gc.position_constraints.isEmpty = false
        && gc.orientation_constraints.isEmpty = false then
      match gc.position_constraints.head?, gc.orientation_constraints.head? with
      | some pc, some oc =>
        match ikFromCartesianConstraints ext.ikSolve ext.nJoints pc oc [] with
        | some goal => some goal
        | none => goalLoop ext g state rest
      | _, _ => goalLoop ext g state rest
    else goalLoop ext g state rest

/-- StompPlanner::getSeedParameters (lines 295-428): extracts the seed
trajectory, converts it to a matrix, rejects seeds with at most 2 columns,
snaps the first column to the request start (copied before enforceBounds at
lines 338-344), resolves a goal candidate against the bounds-enforced state,
snaps the last column to it, and finally applies polynomial smoothing.
Outer none is undefined behavior inherited from extraction; inner none is
the boolean false return (no usable seed). -/
def getSeedParameters (ext : Ext) (g : JointModelGroup) (req : MotionPlanRequest) :
    Option (Option Mat) :=
  match extractSeedTrajectory ext g req with
  | none => none
  | some none => some none
  | some (some traj) =>
    let params := jointTrajectorytoParameters traj
    if params.length ≤ 2 then some none
    else
      let state0 := req.start_state.joint_positions
      let start := g.names.map (getVar state0)
      let state := enforceBounds g state0
      match repairStart params start with
      | none => some none
      | some p1 =>
        match goalLoop ext g state req.goal_constraints with
        | none => some none
        | some goal =>
          match repairGoal p1 goal with
          | none => some none
          | some p2 => some (ext.smooth p2)

/-- The joint branch of StompPlanner::getStartAndGoal (lines 765-853):
reads the start from the request start state, fails if it violates bounds
or if no goal constraint is given, then scans the goal candidates. -/
def getStartAndGoalJoint (ext : Ext) (g : JointModelGroup) (req : MotionPlanRequest) :
    Option (Vec × Vec) :=
  let state := req.start_state.joint_positions
  if satisfiesBounds g state = false then none
  else
    let start := g.names.map (getVar state)
    if req.goal_constraints.isEmpty then none
    else (goalLoop ext g state req.goal_constraints).map (fun goal => (start, goal))

/-- StompPlanner::robotStateFromEigen (lines 697-704) is an unfinished stub:
its body is assert(false) with a FINISH THIS marker, so executing it has no
defined result (it aborts in a debug build and returns a default-constructed
empty message otherwise, never a state built from the argument). -/
def robotStateFromEigen (_state : Vec) : Option RobotStateMsg :=
  none

/-- StompPlanner::jointConstraintsFromEigen (lines 706-713), the same
assert(false) stub as robotStateFromEigen. -/
def jointConstraintsFromEigen (_state : Vec) : Option ConstraintsMsg :=
  none

/-- StompPlanner::getStartAndGoal (lines 715-854).  Outer none is an
undefined execution: isCartesianSeed reading an empty constraint vector or
falling through, front()/back() on empty constraint lists, or the
assert(false) stubs reached on the Cartesian path when both the start IK and
the goal IK succeed (lines 756-761).  Inner none is the boolean false
return.  A defined success carries the start/goal pair and the (possibly
mutated) request. -/
def getStartAndGoal (ext : Ext) (g : JointModelGroup) (req : MotionPlanRequest) :
    Option (Option ((Vec × Vec) × MotionPlanRequest)) :=
  match isCartesianSeed req.trajectory_constraints.constraints with
  | none => none
  | some true =>
    match req.trajectory_constraints.constraints.head? with
    | none => none
    | some c0 =>
      match c0.position_constraints.head?, c0.orientation_constraints.head?,
            c0.position_constraints.getLast?, c0.orientation_constraints.getLast? with
      | some pcf, some ocf, some pcl, some ocl =>
        let fs := ikFromCartesianConstraints ext.ikSolve ext.nJoints pcf ocf []
        let fg := ikFromCartesianConstraints ext.ikSolve ext.nJoints pcl ocl []
        match fs, fg with
        | some _, some _ => none
        | _, _ => some none
      | _, _, _, _ => none
  | some false =>
    some ((getStartAndGoalJoint ext g req).map (fun sg => (sg, req)))

/-- StompPlanner::parametersToJointTrajectory (lines 430-467): one point per
matrix column, then the iterative parabolic time parameterization; none
embeds a time-parameterization failure. -/
def parametersToJointTrajectory (ext : Ext) (g : JointModelGroup) (params : Mat) :
    Option JointTrajectory :=
  ext.computeTimeStamps ⟨g.names, params.map (fun col => ⟨col⟩)⟩

/-- Which optimizer overload a session invoked, and with what arguments. -/
inductive OptimizerCall where
  | seeded : Mat → OptimizerCall
  | startGoal : Vec → Vec → OptimizerCall
deriving DecidableEq

/-- The observable outcome of solve(MotionPlanDetailedResponse): the final
error code, the attached trajectory (res.trajectory_[0] when populated), the
boolean return value, and the optimizer invocation that took place. -/
structure SolveOutcome where
  errorCode : Int
  trajectory : Option JointTrajectory
  returnValue : Bool
  optimizerCall : Option OptimizerCall
deriving DecidableEq

/-- The result-handling tail of solve (lines 258-293): an optimizer failure
or a time-parameterization failure returns false with PLANNING_FAILED and no
attached trajectory; otherwise the trajectory is attached and the planning
scene path check runs.  When the path check fails the error code is set to
PLANNING_FAILED and the local success flag is cleared, but the function
still falls through to the final return true (line 292), so the boolean
return value is true in both defined terminal paths. -/
def handleResults (ext : Ext) (g : JointModelGroup) (planning : Option Mat)
    (call : OptimizerCall) : SolveOutcome :=
  match planning with
  | none => ⟨PLANNING_FAILED, none, false, some call⟩
  | some params =>
    match parametersToJointTrajectory ext g params with
    | none => ⟨PLANNING_FAILED, none, false, some call⟩
    | some traj =>
      if ext.isPathValid traj then ⟨SUCCESS, some traj, true, some call⟩
      else ⟨PLANNING_FAILED, some traj, true, some call⟩

/-- StompPlanner::solve(MotionPlanDetailedResponse) (lines 174-293): looks
for a usable seed; on the seeded path a task-setup failure returns FAILURE,
otherwise the seeded optimizer overload runs; on the unseeded path a
getStartAndGoal failure returns INVALID_MOTION_PLAN, a task-setup failure
returns FAILURE, otherwise the start/goal optimizer overload runs; results
are then handled by handleResults.  Outer none propagates an undefined
execution from getSeedParameters or getStartAndGoal. -/
def solve (ext : Ext) (g : JointModelGroup) (req : MotionPlanRequest) :
    Option SolveOutcome :=
  match getSeedParameters ext g req with
  | none => none
  | some (some initial) =>
    if ext.taskOK = false then some ⟨FAILURE, none, false, none⟩
    else some (handleResults ext g (ext.stompSolveSeed initial) (.seeded initial))
  | some none =>
    match getStartAndGoal ext g req with
    | none => none
    | some none => some ⟨INVALID_MOTION_PLAN, none, false, none⟩
    | some (some ((s, gl), _)) =>
      if ext.taskOK = false then some ⟨FAILURE, none, false, none⟩
      else some (handleResults ext g (ext.stompSolveStartGoal s gl) (.startGoal s gl))

/-! Concrete fixtures used by the closed evaluation theorems and by the
witnesses of the quantified theorems. -/

/-- A one-joint planning group with bounds [-10, 10]. -/
def group1 : JointModelGroup := ⟨[⟨"j1", -10, 10⟩]⟩

/-- A fixture joint constraint. -/
def jc0 : JointConstraintMsg := ⟨"j1", 0⟩

/-- A fixture position constraint at the origin. -/
def pc0 : PositionConstraintMsg := ⟨0, 0, 0⟩

/-- A fixture identity-orientation constraint. -/
def oc0 : OrientationConstraintMsg := ⟨0, 0, 0, 1⟩

/-- A collaborator record whose optimizer echoes its seed, whose time
parameterization is the identity, whose smoother is the identity, and whose
planning-scene check reports every path as colliding. -/
def extColliding : Ext where
  ikSolve := fun _ _ => none
  nJoints := 1
  smooth := fun m => some m
  taskOK := true
  stompSolveSeed := fun m => some m
  stompSolveStartGoal := fun _ _ => some [[0]]
  computeTimeStamps := fun t => some t
  isPathValid := fun _ => false

/-- A request carrying a three-point joint seed from 0 to 1/5 on the single
joint, with a matching joint-space goal at 1/5. -/
def reqSeeded : MotionPlanRequest where
  start_state := ⟨[("j1", 0)]⟩
  goal_constraints := [⟨[⟨"j1", 1/5⟩], [], []⟩]
  trajectory_constraints :=
    ⟨[⟨[⟨"j1", 0⟩], [], []⟩, ⟨[⟨"j1", 1/10⟩], [], []⟩, ⟨[⟨"j1", 1/5⟩], [], []⟩]⟩

/-- The scenario-A request: no seed trajectory (empty trajectory
constraints), an in-bounds joint start, and a single in-bounds joint goal
fully specifying the only active joint. -/
def reqNoSeed : MotionPlanRequest where
  start_state := ⟨[("j1", 0)]⟩
  goal_constraints := [⟨[⟨"j1", 1⟩], [], []⟩]
  trajectory_constraints := ⟨[]⟩

/-- A request whose trajectory constraints hold a two-waypoint Cartesian
seed (no joint constraints, paired position and orientation constraints). -/
def reqCartesian : MotionPlanRequest where
  start_state := ⟨[("j1", 0)]⟩
  goal_constraints := []
  trajectory_constraints := ⟨[⟨[], [⟨0, 0, 0⟩, ⟨1, 0, 0⟩], [oc0, oc0]⟩]⟩

/-- A solver that always succeeds, answering with the x component of the
target pose as the single joint value. -/
def solverEcho : Vec → Pose → Option Vec :=
  fun _ p => some [p.px]

/-- A collaborator record around solverEcho. -/
def extCartOK : Ext := { extColliding with ikSolve := solverEcho }

/-- A solver that fails exactly on poses with x component 1. -/
def solverFailAt1 : Vec → Pose → Option Vec :=
  fun _ p => if p.px = 1 then none else some [p.px]

/-- A collaborator record around solverFailAt1. -/
def extCartGoalFails : Ext := { extColliding with ikSolve := solverFailAt1 }

/-- A request carrying a two-point joint seed, one point short of the
minimum usable seed length. -/
def reqShortSeed : MotionPlanRequest where
  start_state := ⟨[("j1", 0)]⟩
  goal_constraints := [⟨[⟨"j1", 1/5⟩], [], []⟩]
  trajectory_constraints := ⟨[⟨[⟨"j1", 0⟩], [], []⟩, ⟨[⟨"j1", 1/10⟩], [], []⟩]⟩

/-- The joint trajectory extracted from reqShortSeed. -/
def trajShort : JointTrajectory := ⟨["j1"], [⟨[0]⟩, ⟨[1/10]⟩]⟩

/-- A Cartesian waypoint whose pose has a given x component. -/
def wpAtX (x : ℚ) : Waypoint := (⟨x, 0, 0⟩, oc0)

/-- A two-joint seed trajectory used by the round-trip witness. -/
def seedRT : JointTrajectory :=
  ⟨["j1", "j2"], [⟨[0, 1]⟩, ⟨[1/2, 2]⟩, ⟨[1, 3]⟩]⟩

/-! Helper lemmas.  The rational-arithmetic primitives are restored to
semireducible so that closed goals about concrete planner runs can be
settled by kernel evaluation. -/

attribute [local semireducible] Rat.add Rat.sub Rat.mul Rat.inv

/-- Unfolding the Cartesian extraction loop on a solvable head waypoint. -/
theorem extractCartAux_cons_some {solver : Vec → Pose → Option Vec} {nJoints : Nat}
    {w : Waypoint} {ws : List Waypoint} {jp sol : Vec}
    (h : ikFromCartesianConstraints solver nJoints w.1 w.2 jp = some sol) :
    extractCartAux solver nJoints (w :: ws) jp =
      (sol :: (extractCartAux solver nJoints ws sol).1,
       (extractCartAux solver nJoints ws sol).2) := by
  simp only [extractCartAux, h]

/-- Unfolding the Cartesian extraction loop on an unsolvable head waypoint. -/
theorem extractCartAux_cons_none {solver : Vec → Pose → Option Vec} {nJoints : Nat}
    {w : Waypoint} {ws : List Waypoint} {jp : Vec}
    (h : ikFromCartesianConstraints solver nJoints w.1 w.2 jp = none) :
    extractCartAux solver nJoints (w :: ws) jp =
      (jp :: (extractCartAux solver nJoints ws jp).1,
       (extractCartAux solver nJoints ws jp).2 + 1) := by
  simp only [extractCartAux, h]

/-- The L1 distance of a configuration to itself is zero. -/
theorem l1dist_self (a : Vec) : l1dist a a = 0 := by
  induction a with
  | nil => rfl
  | cons x xs ih =>
    simp only [l1dist, List.zipWith_cons_cons, List.sum_cons, sub_self, abs_zero, zero_add]
    exact ih

/-- The Cartesian extraction loop pushes exactly one point per waypoint. -/
theorem extractCartAux_length (solver : Vec → Pose → Option Vec) (nJoints : Nat) :
    ∀ (ws : List Waypoint) (jp : Vec),
      (extractCartAux solver nJoints ws jp).1.length = ws.length := by
  intro ws
  induction ws with
  | nil => intro jp; rfl
  | cons w ws ih =>
    intro jp
    unfold extractCartAux
    cases hik : ikFromCartesianConstraints solver nJoints w.1 w.2 jp with
    | none => simp [ih]
    | some sol => simp [ih]

/-- Running the Cartesian extraction loop through an all-solvable run of
waypoints produces one solution point per waypoint and hands the last
solution on as the hint state for the remaining waypoints. -/
theorem extractCartAux_solvable_run (solver : Vec → Pose → Option Vec) (nJoints : Nat) :
    ∀ (as : List Waypoint), (∀ w ∈ as, solvableWp solver nJoints w) →
    ∀ (rest : List Waypoint) (jp : Vec),
    ∃ ps last,
      extractCartAux solver nJoints (as ++ rest) jp =
        (ps ++ (extractCartAux solver nJoints rest last).1,
         (extractCartAux solver nJoints rest last).2)
      ∧ ps.length = as.length
      ∧ (as = [] → ps = [] ∧ last = jp)
      ∧ (as ≠ [] → ps.getLast? = some last) := by
  intro as
  induction as with
  | nil =>
    intro _ rest jp
    exact ⟨[], jp, by simp, by simp, fun _ => ⟨rfl, rfl⟩, fun h => absurd rfl h⟩
  | cons a as ih =>
    intro hsolv rest jp
    have ha : solvableWp solver nJoints a := hsolv a (List.mem_cons_self a as)
    obtain ⟨sol, hsol⟩ := Option.isSome_iff_exists.mp (ha jp)
    obtain ⟨ps, last, heq, hlen, hnil, hne⟩ :=
      ih (fun w hw => hsolv w (List.mem_cons_of_mem a hw)) rest sol
    refine ⟨sol :: ps, last, ?_, by simp [hlen], by simp, ?_⟩
    · rw [List.cons_append, extractCartAux_cons_some hsol, heq]
      rfl
    · intro _
      by_cases hcase : as = []
      · obtain ⟨hps, hlast⟩ := hnil hcase
        subst hps
        simp [hlast]
      · have hps : ps ≠ [] := by
          intro hp
          exact hcase (List.length_eq_zero.mp (hlen ▸ hp ▸ rfl))
        cases ps with
        | nil => exact absurd rfl hps
        | cons b l => simpa using hne hcase

/-! Claim theorems. -/

/-- C1: for an optimizer result that converts to a joint trajectory but
fails the planning-scene path check, solve marks the outcome PLANNING_FAILED
and leaves the trajectory attached, but — contrary to the claim — it
returns true, not false: the local success flag cleared at line 284 is dead
and line 292 returns true unconditionally.  Evaluated here at a concrete
seeded request with a collaborator whose path check always fails. -/
theorem c1_collision_marked_failed_but_returns_true :
    (solve extColliding group1 reqSeeded).map
        (fun o => (o.errorCode, o.trajectory.isSome, o.returnValue))
      = some (PLANNING_FAILED, true, true) := by
  decide

/-- C2: the seed-type classifier is not total as the claim states.  On the
two defined shapes it answers joint-seeded and Cartesian-seeded as claimed,
but on an empty constraint list it indexes constraints[0] out of bounds and
on a first constraint set matching neither shape control falls off the end
of the non-void function, so in both claimed AmbiguousSeedType cases the
result is undefined (none) rather than a defined failure. -/
theorem c2_seed_classifier_undefined_cases :
    isCartesianSeed [⟨[jc0], [], []⟩] = some false
  ∧ isCartesianSeed [⟨[], [pc0], [oc0]⟩] = some true
  ∧ isCartesianSeed [] = none
  ∧ isCartesianSeed [⟨[], [pc0], []⟩] = none := by
  decide

/-- C3: for a seed matrix with at least 3 columns, when the L1 distance
between the first column and the request start is at most 1/2 the repair
step overwrites the first column with the exact start (and repairing the
repaired matrix leaves it unchanged), and when the distance exceeds 1/2 the
repair step fails with no output matrix. -/
theorem c3_seed_start_snap_or_fail (params : Mat) (start : Vec)
    (h3 : 3 ≤ params.length) :
    (l1dist (params.headD []) start ≤ MAX_START_DISTANCE_THRESH →
        repairStart params start = some (setFirstCol params start)
      ∧ (setFirstCol params start).headD [] = start
      ∧ repairStart (setFirstCol params start) start = some (setFirstCol params start))
  ∧ (MAX_START_DISTANCE_THRESH < l1dist (params.headD []) start →
        repairStart params start = none) := by
  cases params with
  | nil => simp at h3
  | cons c cs =>
    constructor
    · intro hle
      have hle2 : l1dist c start ≤ MAX_START_DISTANCE_THRESH := by simpa using hle
      refine ⟨by simp [repairStart, within_tolerance, hle2], rfl, ?_⟩
      show repairStart (start :: cs) start = some (start :: cs)
      have h0 : l1dist ((start :: cs).headD []) start = 0 := by simp [l1dist_self]
      simp [repairStart, within_tolerance, setFirstCol, h0, MAX_START_DISTANCE_THRESH]
      rw [l1dist_self]
      norm_num
    · intro hgt
      have hgt2 : ¬ l1dist c start ≤ MAX_START_DISTANCE_THRESH :=
        not_le.mpr (by simpa using hgt)
      simp [repairStart, within_tolerance, hgt2]

/-- Witness for C3 at a concrete 3-column seed whose first column is within
tolerance of the request start. -/
theorem c3_witness :
    3 ≤ ([[0], [1], [2]] : Mat).length
  ∧ ((l1dist (([[0], [1], [2]] : Mat).headD []) [1/4] ≤ MAX_START_DISTANCE_THRESH →
        repairStart [[0], [1], [2]] [1/4] = some (setFirstCol [[0], [1], [2]] [1/4])
      ∧ (setFirstCol [[0], [1], [2]] [1/4]).headD [] = [1/4]
      ∧ repairStart (setFirstCol [[0], [1], [2]] [1/4]) [1/4]
          = some (setFirstCol [[0], [1], [2]] [1/4]))
    ∧ (MAX_START_DISTANCE_THRESH < l1dist (([[0], [1], [2]] : Mat).headD []) [1/4] →
        repairStart [[0], [1], [2]] [1/4] = none)) :=
  ⟨by decide, c3_seed_start_snap_or_fail [[0], [1], [2]] [1/4] (by decide)⟩

/-- C4: whenever the extracted seed trajectory has fewer than 3 points, the
seed pipeline reports no usable seed (the boolean false return at lines
319-323), whatever the collaborators, group, or remaining request content. -/
theorem c4_short_seed_rejected (ext : Ext) (g : JointModelGroup)
    (req : MotionPlanRequest) (traj : JointTrajectory)
    (hex : extractSeedTrajectory ext g req = some (some traj))
    (hlen : traj.points.length < 3) :
    getSeedParameters ext g req = some none := by
  unfold getSeedParameters
  rw [hex]
  have h2 : (jointTrajectorytoParameters traj).length ≤ 2 := by
    simpa [jointTrajectorytoParameters] using Nat.lt_succ_iff.mp hlen
  simp [h2]

/-- Witness for C4 at a concrete request carrying a two-point joint seed. -/
theorem c4_witness :
    extractSeedTrajectory extColliding group1 reqShortSeed = some (some trajShort)
  ∧ trajShort.points.length < 3
  ∧ getSeedParameters extColliding group1 reqShortSeed = some none :=
  ⟨by decide, by decide,
    c4_short_seed_rejected extColliding group1 reqShortSeed trajShort
      (by decide) (by decide)⟩

/-- C6: each IK solve is warm-started with the running previous solution,
but the first solve does not use a mid-range nominal as the claim states:
with an empty hint the nominal handed to the solver is the all-zero
configuration (the source comment promises a configuration midway between
all joint limits, yet no limits are queried).  Witnessed by an echoing
solver, which reveals the nominal actually passed, against the spec-modelled
mid-range nominal of an asymmetric two-joint limit set. -/
theorem c6_first_hint_zero_not_midrange :
    ikFromCartesianConstraints (fun nom _ => some nom) 2 pc0 oc0 [] = some [0, 0]
  ∧ midRangeNominal [(0, 2), (-1, 3)] = [1, 1]
  ∧ nominalFor 2 [] ≠ midRangeNominal [(0, 2), (-1, 3)] := by
  decide

/-- C7: on the Cartesian-seeded path with both start and goal IK
succeeding, getStartAndGoal never performs the claimed write-back of the
resolved configurations: it reaches the assert(false) stubs
robotStateFromEigen and jointConstraintsFromEigen, so its execution is
undefined (none); and when the goal IK fails, it returns false (inner none)
without touching the request, so no defined execution mutates the request
with resolved values. -/
theorem c7_cartesian_writeback_asserts_false :
    getStartAndGoal extCartOK group1 reqCartesian = none
  ∧ getStartAndGoal extCartGoalFails group1 reqCartesian = some none
  ∧ robotStateFromEigen [0] = none
  ∧ jointConstraintsFromEigen [0] = none := by
  decide

/-- C8: the scenario-A session does not succeed: for a request with no seed
trajectory the unseeded path of solve calls getStartAndGoal, which
unconditionally invokes isCartesianSeed, and that reads
trajectory_constraints.constraints[0] from an empty vector — an undefined
execution (none) before any start/goal extraction or optimizer call. -/
theorem c8_unseeded_request_undefined_classifier :
    solve extColliding group1 reqNoSeed = none
  ∧ isCartesianSeed reqNoSeed.trajectory_constraints.constraints = none := by
  decide

/-- C10: when IK fails at the very first waypoint (so the running joint_pos
is still the empty initial vector), the extraction pushes a placeholder
point with an empty positions vector, still reports overall success, and
consequently, for any positive DOF count, the returned points are not all of
DOF length. -/
theorem c10_first_waypoint_failure_empty_placeholder
    (solver : Vec → Pose → Option Vec) (nJoints : Nat)
    (w : Waypoint) (ws : List Waypoint)
    (hfail : ikFromCartesianConstraints solver nJoints w.1 w.2 [] = none) :
    (extractSeedCartesianTrajectory solver nJoints (w :: ws)).1.head? = some []
  ∧ (extractSeedCartesianTrajectory solver nJoints (w :: ws)).2.2 = true
  ∧ (0 < nJoints →
      ((extractSeedCartesianTrajectory solver nJoints (w :: ws)).1.all
        (fun v => v.length == nJoints)) = false) := by
  have hstep : extractCartAux solver nJoints (w :: ws) [] =
      (([] : Vec) :: (extractCartAux solver nJoints ws []).1,
       (extractCartAux solver nJoints ws []).2 + 1) :=
    extractCartAux_cons_none hfail
  refine ⟨?_, rfl, ?_⟩
  · simp [extractSeedCartesianTrajectory, hstep]
  · intro hn
    have h0 : ((([] : Vec)).length == nJoints) = false := by
      cases nJoints with
      | zero => exact absurd hn (by simp)
      | succ m => rfl
    simp only [extractSeedCartesianTrajectory, hstep, List.all_cons, h0, Bool.false_and]

/-- Witness for C10: a solver that always fails, a single waypoint. -/
theorem c10_witness :
    ikFromCartesianConstraints (fun _ _ => none) 1 (wpAtX 0).1 (wpAtX 0).2 [] = none
  ∧ ((extractSeedCartesianTrajectory (fun _ _ => none) 1 [wpAtX 0]).1.head? = some []
    ∧ (extractSeedCartesianTrajectory (fun _ _ => none) 1 [wpAtX 0]).2.2 = true
    ∧ (0 < 1 →
        ((extractSeedCartesianTrajectory (fun _ _ => none) 1 [wpAtX 0]).1.all
          (fun v => v.length == 1)) = false)) :=
  ⟨rfl, c10_first_waypoint_failure_empty_placeholder (fun _ _ => none) 1 (wpAtX 0) [] rfl⟩

/-- Looking up index j of a list by position, over exactly the index range
of the list, reproduces the list. -/
theorem range_map_getD (l : List ℚ) :
    (List.range l.length).map (fun j => l.getD j 0) = l := by
  induction l with
  | nil => rfl
  | cons x xs ih =>
    rw [List.length_cons, List.range_succ_eq_map]
    simp only [List.map_cons, List.map_map, Function.comp_def, List.getD_cons_zero,
      List.getD_cons_succ]
    rw [ih]

/-- The joint constraints encoded from one trajectory point have the
expected count, carry the group names in order, and decode back to the
original positions. -/
theorem encode_point_names (names : List String) (pos : List ℚ)
    (h : pos.length = names.length) :
    (List.zipWith (fun nm x => (⟨nm, x⟩ : JointConstraintMsg)) names pos).length
        = names.length
  ∧ (∀ q ∈ (List.zipWith (fun nm x => (⟨nm, x⟩ : JointConstraintMsg)) names pos).zip names,
        q.1.joint_name = q.2)
  ∧ (List.zipWith (fun nm x => (⟨nm, x⟩ : JointConstraintMsg)) names pos).map
        (fun jc => jc.position) = pos := by
  induction names generalizing pos with
  | nil =>
    cases pos with
    | nil => exact ⟨rfl, by simp, rfl⟩
    | cons x xs => simp at h
  | cons nm names ih =>
    cases pos with
    | nil => simp at h
    | cons x xs =>
      have h2 : xs.length = names.length := by simpa using h
      obtain ⟨ha, hb, hc⟩ := ih xs h2
      refine ⟨by simpa using ha, ?_, by simpa using hc⟩
      intro q hq
      simp only [List.zipWith_cons_cons, List.zip_cons_cons, List.mem_cons] at hq
      rcases hq with hq | hq
      · subst hq; rfl
      · exact hb q hq

/-- Decoding the encoded constraint list of a point list recovers the
points, provided every point has one position per group joint. -/
theorem decodeConstraints_encode (names : List String)
    (pts : List JointTrajectoryPoint)
    (h : ∀ p ∈ pts, p.positions.length = names.length) :
    decodeConstraints names (pts.map (fun p =>
      (⟨List.zipWith (fun nm x => ⟨nm, x⟩) names p.positions, [], []⟩ : ConstraintsMsg)))
      = some pts := by
  induction pts with
  | nil => rfl
  | cons p pts ih =>
    obtain ⟨ha, hb, hc⟩ :=
      encode_point_names names p.positions (h p (List.mem_cons_self p pts))
    have hcond : (((List.zipWith (fun nm x => (⟨nm, x⟩ : JointConstraintMsg))
          names p.positions).length == names.length)
        && ((List.zipWith (fun nm x => (⟨nm, x⟩ : JointConstraintMsg))
          names p.positions).zip names).all (fun q => q.1.joint_name == q.2)) = true := by
      simp only [Bool.and_eq_true, beq_iff_eq, List.all_eq_true]
      exact ⟨ha, fun q hq => hb q hq⟩
    have hrest := ih (fun q hq => h q (List.mem_cons_of_mem p hq))
    simp only [List.map_cons, decodeConstraints, hcond, if_true, hrest, hc]

/-- C9: a joint trajectory whose every point carries exactly one position
per active group joint, in group order, survives the round trip through the
generic ordered-constraint representation: encoding succeeds, decoding
yields back the same joint names and points, and the resulting trajectory
matrix equals the matrix of the original, which is exactly the original
per-point position lists. -/
theorem c9_seed_roundtrip (seed : JointTrajectory) (names : List String)
    (h1 : seed.joint_names = names)
    (h2 : ∀ p ∈ seed.points, p.positions.length = names.length) :
    (encodeSeedTrajectory seed).bind (fun enc => extractSeedJointTrajectory names enc)
        = some ⟨names, seed.points⟩
  ∧ jointTrajectorytoParameters ⟨names, seed.points⟩ = jointTrajectorytoParameters seed
  ∧ jointTrajectorytoParameters seed = seed.points.map (fun p => p.positions) := by
  subst h1
  have henc : encodeSeedTrajectory seed = some ⟨seed.points.map (fun p =>
      ⟨List.zipWith (fun nm x => ⟨nm, x⟩) seed.joint_names p.positions, [], []⟩)⟩ := by
    have hall : seed.points.all
        (fun p => p.positions.length == seed.joint_names.length) = true := by
      simp only [List.all_eq_true]
      exact fun p hp => beq_iff_eq.mpr (h2 p hp)
    simp only [encodeSeedTrajectory, hall, if_true]
  refine ⟨?_, rfl, ?_⟩
  · rw [henc]
    simp [extractSeedJointTrajectory,
      decodeConstraints_encode seed.joint_names seed.points h2]
  · unfold jointTrajectorytoParameters
    apply List.map_congr_left
    intro p hp
    rw [← h2 p hp]
    exact range_map_getD p.positions

/-- Witness for C9 on a concrete two-joint, three-point trajectory. -/
theorem c9_witness :
    seedRT.joint_names = ["j1", "j2"]
  ∧ (∀ p ∈ seedRT.points, p.positions.length = (["j1", "j2"] : List String).length)
  ∧ ((encodeSeedTrajectory seedRT).bind
        (fun enc => extractSeedJointTrajectory ["j1", "j2"] enc)
        = some ⟨["j1", "j2"], seedRT.points⟩
    ∧ jointTrajectorytoParameters ⟨["j1", "j2"], seedRT.points⟩
        = jointTrajectorytoParameters seedRT
    ∧ jointTrajectorytoParameters seedRT = seedRT.points.map (fun p => p.positions)) :=
  ⟨rfl, by decide, c9_seed_roundtrip seedRT ["j1", "j2"] rfl (by decide)⟩

/-- C5: for a Cartesian waypoint chain with a nonempty all-solvable run,
then one unsolvable interior waypoint, then a nonempty all-solvable rest,
the extraction does not abort: it returns exactly one point per waypoint,
reports at least one failure, and the point at the unsolvable position
equals the point before it (the last successful solution is substituted as
the placeholder). -/
theorem c5_interior_ik_failure_placeholder
    (solver : Vec → Pose → Option Vec) (nJoints : Nat)
    (as cs : List Waypoint) (b : Waypoint)
    (ha : ∀ w ∈ as, solvableWp solver nJoints w)
    (hc : ∀ w ∈ cs, solvableWp solver nJoints w)
    (hb : unsolvableWp solver nJoints b)
    (hk : as ≠ []) (hn : cs ≠ []) :
    (extractSeedCartesianTrajectory solver nJoints (as ++ b :: cs)).1.length
        = (as ++ b :: cs).length
  ∧ 1 ≤ (extractSeedCartesianTrajectory solver nJoints (as ++ b :: cs)).2.1
  ∧ (extractSeedCartesianTrajectory solver nJoints (as ++ b :: cs)).1[as.length]?
      = (extractSeedCartesianTrajectory solver nJoints (as ++ b :: cs)).1[as.length - 1]? := by
  obtain ⟨ps, last, heq, hp, -, hne⟩ :=
    extractCartAux_solvable_run solver nJoints as ha (b :: cs) []
  have hblast : ikFromCartesianConstraints solver nJoints b.1 b.2 last = none := hb last
  have hstep := @extractCartAux_cons_none solver nJoints b cs last hblast
  have hlen1 : 1 ≤ as.length := by
    cases as with
    | nil => exact absurd rfl hk
    | cons a l => simp
  refine ⟨extractCartAux_length solver nJoints (as ++ b :: cs) [], ?_, ?_⟩
  · show 1 ≤ (extractCartAux solver nJoints (as ++ b :: cs) []).2
    rw [heq]
    simp only [hstep]
    omega
  · show (extractCartAux solver nJoints (as ++ b :: cs) []).1[as.length]?
        = (extractCartAux solver nJoints (as ++ b :: cs) []).1[as.length - 1]?
    rw [heq]
    simp only [hstep]
    have h1 : (ps ++ last :: (extractCartAux solver nJoints cs last).1)[as.length]?
        = some last := by
      rw [List.getElem?_append_right (by omega)]
      simp [hp]
    have h2 : (ps ++ last :: (extractCartAux solver nJoints cs last).1)[as.length - 1]?
        = some last := by
      rw [List.getElem?_append_left (by omega)]
      rw [show as.length - 1 = ps.length - 1 by omega]
      rw [← List.getLast?_eq_getElem?]
      exact hne hk
    rw [h1, h2]

/-- Witness for C5: three waypoints with x components 0, 1 and 2, a solver
failing exactly at x = 1. -/
theorem c5_witness :
    (∀ w ∈ [wpAtX 0], solvableWp solverFailAt1 1 w)
  ∧ unsolvableWp solverFailAt1 1 (wpAtX 1)
  ∧ (∀ w ∈ [wpAtX 2], solvableWp solverFailAt1 1 w)
  ∧ ((extractSeedCartesianTrajectory solverFailAt1 1
        ([wpAtX 0] ++ wpAtX 1 :: [wpAtX 2])).1.length
        = ([wpAtX 0] ++ wpAtX 1 :: [wpAtX 2]).length
    ∧ 1 ≤ (extractSeedCartesianTrajectory solverFailAt1 1
        ([wpAtX 0] ++ wpAtX 1 :: [wpAtX 2])).2.1
    ∧ (extractSeedCartesianTrajectory solverFailAt1 1
        ([wpAtX 0] ++ wpAtX 1 :: [wpAtX 2])).1[([wpAtX 0] : List Waypoint).length]?
        = (extractSeedCartesianTrajectory solverFailAt1 1
        ([wpAtX 0] ++ wpAtX 1 :: [wpAtX 2])).1[([wpAtX 0] : List Waypoint).length - 1]?) := by
  have ha0 : ∀ w ∈ [wpAtX 0], solvableWp solverFailAt1 1 w := by
    intro w hw
    simp only [List.mem_singleton] at hw
    subst hw
    intro h
    rfl
  have hc0 : ∀ w ∈ [wpAtX 2], solvableWp solverFailAt1 1 w := by
    intro w hw
    simp only [List.mem_singleton] at hw
    subst hw
    intro h
    rfl
  have hb0 : unsolvableWp solverFailAt1 1 (wpAtX 1) := fun _ => rfl
  exact ⟨ha0, hb0, hc0,
    c5_interior_ik_failure_placeholder solverFailAt1 1 [wpAtX 0] [wpAtX 2] (wpAtX 1)
      ha0 hc0 hb0 (by decide) (by decide)⟩

end StompPlannerModel
